import Mathlib

/-!
Shallow embedding of the simulation core of `src/src/main.rs` (a raylib
party game: "color the map" / "dodge" minigames).  `f32` quantities are
modelled by `ℚ` (exact field arithmetic; all control-flow comparisons in
the claims are robust), machine integers by `Nat`/`Int`, fallible
operations (bullet removal, NaN-producing division) by `Option`.
Rendering, textures and input polling are external collaborators: input
is passed in as six resolved booleans, the canvas as a pixel function.
-/

/-- Screen width constant from the source. -/
def SCREEN_WIDTH : Int := 1200

/-- Screen height constant from the source. -/
def SCREEN_HEIGHT : Int := 650

/-- Radius of the paint splat (`PAINT_RADIUS: f32 = 5.0`). -/
def PAINT_RADIUS : ℚ := 5

/-- `raylib::Vector2`, with `f32` fields modelled by `ℚ`. -/
structure Vector2 where
  x : ℚ
  y : ℚ
deriving DecidableEq, Repr

/-- `raylib::Rectangle`, with `f32` fields modelled by `ℚ`. -/
structure Rectangle where
  x : ℚ
  y : ℚ
  width : ℚ
  height : ℚ
deriving DecidableEq, Repr

/-- `raylib::Color` (`u8` channels modelled by `Nat`). -/
structure Color where
  r : Nat
  g : Nat
  b : Nat
  a : Nat
deriving DecidableEq, Repr

/-- `MiniGames` enum from the source. -/
inductive MiniGames where
  | ColorTheMap
  | Dodge
  | FloorIsLava
deriving DecidableEq, BEq, Repr

/-- `KeyboardControls` enum from the source. -/
inductive KeyboardControls where
  | WASD
  | ArrowKeys
deriving DecidableEq, Repr

/-- `InputType` enum from the source (controller slot as `Nat`). -/
inductive InputType where
  | Keyboard (k : KeyboardControls)
  | Controller (n : Nat)
deriving DecidableEq, Repr

/-- The `Player` struct.  `texture` (a GPU handle) and the render-only
angle field are omitted: neither participates in physics, collision,
painting or scoring. -/
structure Player where
  position : Vector2
  velocity : Vector2
  speed : ℚ
  color : Color
  controls : InputType
  game : MiniGames
  is_on_ground : Bool
  width : ℚ
  height : ℚ
  jump_force : ℚ
  is_jumping : Bool
  jump_time : ℚ
  max_jump_time : ℚ
  min_jump_velocity : ℚ
  points : Nat
  number : Nat
  dead : Bool
deriving DecidableEq, Repr

/-- `Player::new`: the constructor from the source, with the same
defaults (`velocity = 0`, `is_on_ground = false`, `max_jump_time = 0.4`,
`min_jump_velocity = 200`, `dead = false`, ...). -/
def Player.new (position : Vector2) (speed : ℚ) (color : Color)
    (controls : InputType) (game : MiniGames) (width height jump_force : ℚ)
    (number : Nat) : Player :=
  { position := position
    velocity := ⟨0, 0⟩
    speed := speed
    color := color
    controls := controls
    game := game
    is_on_ground := false
    width := width
    height := height
    jump_force := jump_force
    is_jumping := false
    jump_time := 0
    max_jump_time := 2/5
    min_jump_velocity := 200
    points := 0
    number := number
    dead := false }

/-- The six logical buttons a player's control source resolves to each
frame (the input back-end is an external collaborator). -/
structure Inputs where
  up : Bool
  down : Bool
  left : Bool
  right : Bool
  primary : Bool
  secondary : Bool
deriving DecidableEq, Repr

/-- Gravity application at the top of `Player::update`:
`if !self.is_on_ground { self.velocity.y += 980.8 * dt; }`. -/
def gravityStep (p : Player) (dt : ℚ) : Player :=
  if p.is_on_ground then p
  else { p with velocity := ⟨p.velocity.x, p.velocity.y + (9808/10) * dt⟩ }

/-- The jump state machine of `Player::update` (the three-armed
`if up && ... else if up && ... else if self.is_jumping` block). -/
def jumpStep (p : Player) (up : Bool) (dt : ℚ) : Player :=
  if up && p.is_on_ground && !p.is_jumping then
    { p with velocity := ⟨p.velocity.x, -p.jump_force⟩
             is_jumping := true
             jump_time := 0
             is_on_ground := false }
  else if up && p.is_jumping then
    if p.jump_time + dt < p.max_jump_time then
      { p with jump_time := p.jump_time + dt
               velocity := ⟨p.velocity.x,
                 -p.jump_force * (1 - (p.jump_time + dt) / p.max_jump_time)⟩ }
    else
      { p with jump_time := p.jump_time + dt }
  else if p.is_jumping then
    if p.velocity.y < -p.min_jump_velocity then
      { p with is_jumping := false
               velocity := ⟨p.velocity.x, -p.min_jump_velocity⟩ }
    else
      { p with is_jumping := false }
  else p

/-- Horizontal input, per-minigame velocity gating, and position
integration at the end of `Player::update`. -/
def moveStep (p : Player) (left right : Bool) (dt : ℚ) : Player :=
  let horizontal : ℚ := (if right then (1 : ℚ) else 0) + (if left then (-1 : ℚ) else 0)
  let q := match p.game with
    | MiniGames.ColorTheMap => { p with velocity := ⟨horizontal * p.speed, p.velocity.y⟩ }
    | _ => p
  { q with position := ⟨q.position.x + q.velocity.x * dt, q.position.y + q.velocity.y * dt⟩ }

/-- `Player::update`: early-returns when dead, else gravity, jump state
machine, horizontal movement and integration, in source order. -/
def Player.update (p : Player) (inp : Inputs) (dt : ℚ) : Player :=
  if p.dead then p
  else moveStep (jumpStep (gravityStep p dt) inp.up dt) inp.left inp.right dt

/-- `Player::get_collision_rect`: box of size `width × height` centred
on `position`. -/
def Player.get_collision_rect (p : Player) : Rectangle :=
  ⟨p.position.x - p.width / 2, p.position.y - p.height / 2, p.width, p.height⟩

/-- raylib's `Rectangle::get_collision_rec`: `some` overlap rectangle
when the rectangles strictly overlap, `none` otherwise. -/
def Rectangle.get_collision_rec (r1 r2 : Rectangle) : Option Rectangle :=
  let l := max r1.x r2.x
  let t := max r1.y r2.y
  let r := min (r1.x + r1.width) (r2.x + r2.width)
  let b := min (r1.y + r1.height) (r2.y + r2.height)
  if l < r ∧ t < b then some ⟨l, t, r - l, b - t⟩ else none

/-- `EnvItem`: a static level obstacle. -/
structure EnvItem where
  rect : Rectangle
  color : Color
deriving DecidableEq, Repr

/-- One push-out of `Player::handle_collision` (the body shared verbatim
by the obstacle loop and the player loop): `player_rect` is the box
computed once at entry, `other` the obstacle/other-player rectangle,
`collision` their overlap. -/
def resolveRect (p : Player) (player_rect other collision : Rectangle) : Player :=
  let dx := collision.width
  let dy := collision.height
  if dx < dy then
    if player_rect.x < other.x then
      { p with position := ⟨p.position.x - dx, p.position.y⟩
               velocity := ⟨0, p.velocity.y⟩ }
    else
      { p with position := ⟨p.position.x + dx, p.position.y⟩
               velocity := ⟨0, p.velocity.y⟩ }
  else
    if player_rect.y < other.y then
      { p with position := ⟨p.position.x, p.position.y - dy⟩
               velocity := ⟨p.velocity.x, 0⟩
               is_on_ground := true }
    else
      { p with position := ⟨p.position.x, p.position.y + dy⟩
               velocity := ⟨p.velocity.x, 0⟩ }

/-- Number of iterations of `while x < e { ...; x += step }` starting at
`s`: the number of naturals `k` with `s + k*step < e`, which for
`step > 0` is `⌈(e - s) / step⌉` (clamped at 0). -/
def stepCount (s e step : ℚ) : Nat := (⌈(e - s) / step⌉).toNat

/-- The paint-point grid of `Player::handle_collision`: the nested
`while` loops over the overlap rectangle with step `PAINT_RADIUS`, each
point offset by `PAINT_RADIUS` on both axes. -/
def genPoints (c : Rectangle) : List Vector2 :=
  let step := PAINT_RADIUS
  let nx := stepCount c.x (c.x + c.width) step
  let ny := stepCount c.y (c.y + c.height) step
  (List.range nx).flatMap fun (i : ℕ) =>
    (List.range ny).map fun (j : ℕ) =>
      Vector2.mk (c.x + (i : ℚ) * step + PAINT_RADIUS)
        (c.y + (j : ℚ) * step + PAINT_RADIUS)

/-- The paint points with the `if points.is_empty()` fallback (a single
centred point) from `Player::handle_collision`. -/
def genPointsFB (c : Rectangle) : List Vector2 :=
  let pts := genPoints c
  if pts.isEmpty then
    [⟨c.x + c.width / 2 + PAINT_RADIUS, c.y + c.height / 2 + PAINT_RADIUS⟩]
  else pts

/-- The obstacle loop of `Player::handle_collision`: pushes the player
out of each overlapping obstacle (against the entry-time `player_rect`)
and collects `(obstacle rect, paint points)` pairs in iteration order. -/
def resolveOps (p : Player) (player_rect : Rectangle) :
    List EnvItem → Player × List (Rectangle × List Vector2)
  | [] => (p, [])
  | op :: rest =>
    match player_rect.get_collision_rec op.rect with
    | none => resolveOps p player_rect rest
    | some collision =>
      let p1 := resolveRect p player_rect op.rect collision
      let pts := genPointsFB collision
      let rec1 := resolveOps p1 player_rect rest
      (rec1.1, (op.rect, pts) :: rec1.2)

/-- The player loop of `Player::handle_collision`: the same push-out
against each other player's box (`rect.get_collision_rec(&player_rect)`
in the source — overlap computation is symmetric), collecting nothing. -/
def resolvePlayersList (p : Player) (player_rect : Rectangle) :
    List Player → Player
  | [] => p
  | other :: rest =>
    let rect := other.get_collision_rect
    match rect.get_collision_rec player_rect with
    | none => resolvePlayersList p player_rect rest
    | some collision =>
      resolvePlayersList (resolveRect p player_rect rect collision) player_rect rest

/-- `Player::handle_collision`: obstacle loop then player loop, both
testing against the box computed once at entry; only obstacle overlaps
contribute to the returned collision list. -/
def Player.handle_collision (p : Player) (ops : List EnvItem)
    (players : List Player) : Player × List (Rectangle × List Vector2) :=
  let player_rect := p.get_collision_rect
  let r1 := resolveOps p player_rect ops
  (resolvePlayersList r1.1 player_rect players, r1.2)

/-- Rust `f32::round`: round half away from zero. -/
def roundRust (q : ℚ) : ℤ := if 0 ≤ q then ⌊q + 1/2⌋ else ⌈q - 1/2⌉

/-- `Player::paint`: the circle-draw request issued to the canvas
(`image.draw_circle(image_x, image_y, PAINT_RADIUS as i32, self.color)`
with `image_x = (point.x - PAINT_RADIUS).round()` and likewise for `y`),
modelled as `(centre, radius, color)`. -/
def Player.paint (p : Player) (pt : Vector2) : (ℤ × ℤ) × ℤ × Color :=
  ((roundRust (pt.x - PAINT_RADIUS), roundRust (pt.y - PAINT_RADIUS)), 5, p.color)

/-- The per-player slice of the main loop's physics pass (lines 815-830):
`update`, then `handle_collision`, then clear the grounded flag when the
obstacle-collision list came back empty.  Painting mutates only the
canvas, not the player. -/
def frameStep (p : Player) (inp : Inputs) (dt : ℚ) (ops : List EnvItem)
    (others : List Player) : Player :=
  let p1 := (p.update inp dt).handle_collision ops others
  if p1.2.isEmpty then { p1.1 with is_on_ground := false } else p1.1

/-- The territory canvas: `map_image`, a pixel buffer read through
`image.get_color(x, y)`. -/
structure Image where
  width : Nat
  height : Nat
  pix : Nat → Nat → Color

/-- The exact-RGB comparison used by every branch of `calculate_winner`
(`pixel.r == c.r && pixel.g == c.g && pixel.b == c.b`; alpha ignored). -/
def colorMatches (pc c : Color) : Bool :=
  pc.r == c.r && pc.g == c.g && pc.b == c.b

/-- Which counter a pixel increments in `calculate_winner`. -/
inductive PixClass where
  | p1
  | p2
  | p3
  | p4
  | unclassified
deriving DecidableEq, BEq, Repr

/-- Guard of the third branch of `calculate_winner`:
`players_count >= 3 || pixel matches player 3's color`. -/
def branch3Guard (players_count : Nat) (pc c3 : Color) : Bool :=
  decide (3 ≤ players_count) || colorMatches pc c3

/-- Guard of the fourth branch of `calculate_winner`:
`players_count >= 4 || pixel matches player 4's color`. -/
def branch4Guard (players_count : Nat) (pc c4 : Color) : Bool :=
  decide (4 ≤ players_count) || colorMatches pc c4

/-- The branch cascade of `calculate_winner` applied to one pixel. -/
def classifyPixel (players_count : Nat) (pc c1 c2 c3 c4 : Color) : PixClass :=
  if colorMatches pc c1 then .p1
  else if colorMatches pc c2 then .p2
  else if branch3Guard players_count pc c3 then .p3
  else if branch4Guard players_count pc c4 then .p4
  else .unclassified

/-- The classification of every canvas pixel, in the scan order of
`calculate_winner` (`for y in 0..height { for x in 0..width }`). -/
def pixelClasses (img : Image) (players_count : Nat) (c1 c2 c3 c4 : Color) :
    List PixClass :=
  (List.range img.height).flatMap fun y =>
    (List.range img.width).map fun x =>
      classifyPixel players_count (img.pix x y) c1 c2 c3 c4

/-- One of the four counters of `calculate_winner`. -/
def countClass (img : Image) (players_count : Nat) (c1 c2 c3 c4 : Color)
    (cl : PixClass) : Nat :=
  ((pixelClasses img players_count c1 c2 c3 c4).filter (fun c => c == cl)).length

/-- `f32` division of two exact counts: `none` models the NaN produced
by `0.0 / 0.0` when the denominator is zero (in `calculate_winner` a
zero total forces every numerator to zero as well); otherwise the exact
quotient. -/
def fdiv (a b : Nat) : Option ℚ :=
  if b = 0 then none else some ((a : ℚ) / (b : ℚ))

/-- `calculate_winner`: scan the canvas, accumulate the four counters
through the branch cascade, and return each counter divided by the sum
of all four. -/
def calculate_winner (img : Image) (players_count : Nat)
    (c1 c2 c3 c4 : Color) : Option ℚ × Option ℚ × Option ℚ × Option ℚ :=
  let n1 := countClass img players_count c1 c2 c3 c4 .p1
  let n2 := countClass img players_count c1 c2 c3 c4 .p2
  let n3 := countClass img players_count c1 c2 c3 c4 .p3
  let n4 := countClass img players_count c1 c2 c3 c4 .p4
  let total := n1 + n2 + n3 + n4
  (fdiv n1 total, fdiv n2 total, fdiv n3 total, fdiv n4 total)

/-- The round-timer-expiry scoring call in `main` (lines 933-941):
`calculate_winner(&mut map_image, 2, &players[0].color, ...)` — the
players-count argument is the literal `2`, whatever the configured
count is. -/
def timerExpiryScoring (_configured_players_count : Nat) (img : Image)
    (c1 c2 c3 c4 : Color) : Option ℚ × Option ℚ × Option ℚ × Option ℚ :=
  calculate_winner img 2 c1 c2 c3 c4

/-- Modelled from the spec (for the refinement half of claim C4): a
classifier that counts a pixel for a player only on an exact RGB colour
match, in the priority order player 1, 2, 3, 4 — "all four players'
pixels are counted by exact color match only". -/
def exactMatchClassifySpec (pc c1 c2 c3 c4 : Color) : PixClass :=
  if colorMatches pc c1 then .p1
  else if colorMatches pc c2 then .p2
  else if colorMatches pc c3 then .p3
  else if colorMatches pc c4 then .p4
  else .unclassified

/-- The round-state fields read and written by the dodge early-win check
in `main` (lines 919-929).  The head-line message
`format!("Player {} won", number + 1)` is modelled as the same string
built from the winner's number. -/
structure RoundState where
  game_type : MiniGames
  level_done : Bool
  level_end_timer : ℚ
  level_timer : ℚ
  head_msg : Option String

/-- The alive-participant filter used by the dodge logic in `main`:
`players.iter().filter(|p| p.dead == false && p.number < players_count)`. -/
def playersAlive (players : List Player) (players_count : Nat) : List Player :=
  players.filter fun p => (p.dead == false) && decide (p.number < players_count)

/-- The dodge early-win check in `main` (lines 919-929): while the dodge
minigame is active and the round is not done, if exactly one
participating player is alive, record the winner message, mark the round
done, and restart the 5-second grace timer. -/
def dodgeEarlyWin (st : RoundState) (players : List Player)
    (players_count : Nat) : RoundState :=
  if st.game_type = MiniGames.Dodge ∧ st.level_done = false then
    let alive := playersAlive players players_count
    if alive.length = 1 then
      { st with
        head_msg := alive.head?.map fun w =>
          "Player " ++ toString (w.number + 1) ++ " won"
        level_done := true
        level_end_timer := 5 }
    else st
  else st

/-- The `Bullet` struct. -/
structure Bullet where
  rect : Rectangle
  color : Color
  speed : Vector2
  time_to_live : ℚ
deriving DecidableEq, Repr

/-- The per-bullet update of the bullet loop in `main` (lines 785-792):
move by `speed * dt` and decrease the lifetime. -/
def updateBullets (bullets : List Bullet) (dt : ℚ) : List Bullet :=
  bullets.map fun b =>
    { b with rect := { b.rect with x := b.rect.x + b.speed.x * dt
                                   y := b.rect.y + b.speed.y * dt }
             time_to_live := b.time_to_live - dt }

/-- The indices pushed onto `delete_bullets` during the bullet loop:
positions (in iteration order) of bullets whose lifetime has reached
zero after this frame's decrement. -/
def deleteIndicesOf (bullets : List Bullet) : List Nat :=
  (bullets.enum.filter fun e => decide (e.2.time_to_live ≤ 0)).map fun e => e.1

/-- `Vec::remove(i)`: `none` models the out-of-bounds panic. -/
def removeAt (bs : List Bullet) (i : Nat) : Option (List Bullet) :=
  if i < bs.length then some (bs.take i ++ bs.drop (i + 1)) else none

/-- The cleanup loop `for index in delete_bullets { bullets.remove(index) }`:
each recorded index is removed, in order, from the list as it shrinks. -/
def removeAll : List Bullet → List Nat → Option (List Bullet)
  | bs, [] => some bs
  | bs, i :: rest =>
    match removeAt bs i with
    | none => none
    | some bs1 => removeAll bs1 rest

/-- The whole bullet update-and-cleanup of one frame of `main` (lines
784-805), bullet state only: update every bullet, record the indices of
the expired ones, then remove those indices one at a time. -/
def bulletCleanup (bullets : List Bullet) (dt : ℚ) : Option (List Bullet) :=
  let moved := updateBullets bullets dt
  removeAll moved (deleteIndicesOf moved)

/-- Player 1's colour `FBB954` (from `Color::from_hex` in `main`). -/
def player1Color : Color := ⟨251, 185, 84, 255⟩

/-- Player 2's colour `A884F3`. -/
def player2Color : Color := ⟨168, 132, 243, 255⟩

/-- Player 3's colour `1EBC73`. -/
def player3Color : Color := ⟨30, 188, 115, 255⟩

/-- Player 4's colour `E83B3B`. -/
def player4Color : Color := ⟨232, 59, 59, 255⟩

/-- The initial canvas pixel: `Color::WHITE.alpha(0.0)`. -/
def blankPixel : Color := ⟨255, 255, 255, 0⟩

/-- A fresh 2×2 territory canvas: every pixel still the blank
background colour, matching no player's colour. -/
def blankCanvas : Image := ⟨2, 2, fun _ _ => blankPixel⟩

/-- All six logical buttons released. -/
def noInput : Inputs := ⟨false, false, false, false, false, false⟩

/-- Only "up" held. -/
def upHeld : Inputs := ⟨true, false, false, false, false, false⟩

/-- Player 1 as built in `main` (spawn `(100, 100)`, speed 300, box
50×50, jump force 700, slot 0). -/
def demoP1 : Player :=
  Player.new ⟨100, 100⟩ 300 player1Color (.Keyboard .WASD) .ColorTheMap 50 50 700 0

/-- Player 2 as built in `main` (slot 1, arrow keys). -/
def demoP2 : Player :=
  Player.new ⟨200, 100⟩ 300 player2Color (.Keyboard .ArrowKeys) .ColorTheMap 50 50 700 1

/-- A player at the origin (box `(-25, -25)`–`(25, 25)`), airborne. -/
def selfP : Player := { demoP1 with position := ⟨0, 0⟩ }

/-- Another player 40 units below `selfP`: boxes overlap in a wide, thin
strip, so the push-out is vertical and `selfP` is on the upper side. -/
def otherBelowP : Player := { demoP2 with position := ⟨0, 40⟩ }

/-- A player mid-jump: rising at 700 units/s with the hold timer already
past `max_jump_time` (0.5 s > 0.4 s). -/
def jumpHoldP : Player :=
  { demoP1 with is_jumping := true, jump_time := 1/2, velocity := ⟨0, -700⟩ }

/-- A dead player at the origin. -/
def deadP : Player := { demoP1 with position := ⟨0, 0⟩, dead := true }

/-- An obstacle overlapping `deadP`'s box in a tall, thin strip
(overlap 5 wide × 50 high ⇒ horizontal push-out). -/
def sideOp : EnvItem := ⟨⟨20, -25, 50, 50⟩, ⟨255, 0, 0, 128⟩⟩

/-- A bullet as spawned by the dodge volley, with a chosen lifetime. -/
def mkBullet (ttl : ℚ) : Bullet :=
  ⟨⟨0, 0, 15, 30⟩, ⟨255, 109, 194, 255⟩, ⟨250, 0⟩, ttl⟩

/-- Two bullets that both expire on the same frame (dt = 1). -/
def twoExpiring : List Bullet := [mkBullet 1, mkBullet 1]

/-- Two expiring bullets followed by one live bullet. -/
def twoExpiringOneLive : List Bullet := [mkBullet 1, mkBullet 1, mkBullet 10]

/-- The single bullet left by the cleanup on `twoExpiringOneLive`:
moved by one frame, lifetime zero — an expired bullet that survives. -/
def expiredSurvivor : Bullet := ⟨⟨250, 0, 15, 30⟩, ⟨255, 109, 194, 255⟩, ⟨250, 0⟩, 0⟩

lemma moveStep_velocity_y (p : Player) (l r : Bool) (dt : ℚ) :
    (moveStep p l r dt).velocity.y = p.velocity.y := by
  cases hg : p.game <;> simp [moveStep, hg]

lemma moveStep_is_jumping (p : Player) (l r : Bool) (dt : ℚ) :
    (moveStep p l r dt).is_jumping = p.is_jumping := by
  cases hg : p.game <;> simp [moveStep, hg]

lemma gravityStep_is_jumping (p : Player) (dt : ℚ) :
    (gravityStep p dt).is_jumping = p.is_jumping := by
  unfold gravityStep; split <;> rfl

lemma gravityStep_is_on_ground (p : Player) (dt : ℚ) :
    (gravityStep p dt).is_on_ground = p.is_on_ground := by
  unfold gravityStep; split <;> rfl

lemma gravityStep_min_jump_velocity (p : Player) (dt : ℚ) :
    (gravityStep p dt).min_jump_velocity = p.min_jump_velocity := by
  unfold gravityStep; split <;> rfl

lemma gravityStep_velocity_y (p : Player) (dt : ℚ) :
    (gravityStep p dt).velocity.y =
      if p.is_on_ground then p.velocity.y else p.velocity.y + (9808/10) * dt := by
  unfold gravityStep; split <;> simp

/-- C9 (counterexample): the claim says a dead player is left entirely
unchanged by the frame's physics-and-collision step; but the main loop
runs `handle_collision` on dead players too, so a dead player whose box
overlaps an obstacle is pushed out (here from `x = 0` to `x = -5`). -/
theorem claim_C9_cex :
    deadP.dead = true ∧
    (frameStep deadP noInput (1/100) [sideOp] []).position.x ≠ deadP.position.x := by
  with_unfolding_all decide

/-- C9 (amended): `Player::update` — the input/gravity/jump/integration
sub-step — leaves a dead player entirely unchanged; the collision
resolution and grounded-flag clearing of the frame still run on dead
players. -/
theorem claim_C9_amended (p : Player) (inp : Inputs) (dt : ℚ)
    (h : p.dead = true) : p.update inp dt = p := by
  simp [Player.update, h]

/-- Witness for C9 (amended): the dead demo player is unchanged by
`update`. -/
theorem claim_C9_amended_witness :
    deadP.dead = true ∧ deadP.update noInput (1/100) = deadP :=
  ⟨rfl, claim_C9_amended deadP noInput (1/100) rfl⟩

/-- C10: the bullet cleanup removes the recorded indices one at a time
from the shrinking list.  With bullets `[expired, expired]` the second
recorded index (1) is out of bounds after the first removal — `none`
models the `Vec::remove` panic.  With `[expired, expired, live]` the
cleanup succeeds but removes the live bullet and keeps an expired one,
so the removed set is not the set of expired bullets. -/
theorem claim_C10 :
    bulletCleanup twoExpiring 1 = none ∧
    bulletCleanup twoExpiringOneLive 1 = some [expiredSurvivor] ∧
    expiredSurvivor.time_to_live ≤ 0 ∧
    (0 : ℚ) < (updateBullets twoExpiringOneLive 1).foldr
      (fun b acc => max b.time_to_live acc) 0 := by
  with_unfolding_all decide

/-- C2: at the failing input (a fresh canvas with every pixel the blank
background colour and player count 2) every counter is zero, so
`calculate_winner` divides zero by zero in all four entries — `none`
models the resulting `f32` NaN; there is no defined fallback. -/
theorem claim_C2_bug :
    countClass blankCanvas 2 player1Color player2Color player3Color player4Color PixClass.p1 = 0 ∧
    countClass blankCanvas 2 player1Color player2Color player3Color player4Color PixClass.p2 = 0 ∧
    countClass blankCanvas 2 player1Color player2Color player3Color player4Color PixClass.p3 = 0 ∧
    countClass blankCanvas 2 player1Color player2Color player3Color player4Color PixClass.p4 = 0 ∧
    calculate_winner blankCanvas 2 player1Color player2Color player3Color player4Color
      = (none, none, none, none) := by
  decide

/-- C3: once the player count is at least 3, any scanned pixel that does
not exactly RGB-match player 1's or player 2's colour is counted for
player 3, whatever player 3's colour is; and the player-4 branch guard
is analogously short-circuited to true whenever the count is at least
4, whatever player 4's colour is. -/
theorem claim_C3 (n : Nat) (pc c1 c2 c3 c4 : Color)
    (h3 : 3 ≤ n) (h1 : colorMatches pc c1 = false)
    (h2 : colorMatches pc c2 = false) :
    classifyPixel n pc c1 c2 c3 c4 = PixClass.p3 ∧
    (4 ≤ n → ∀ c4x : Color, branch4Guard n pc c4x = true) := by
  constructor
  · simp [classifyPixel, branch3Guard, h1, h2, h3]
  · intro h4 c4x
    simp [branch4Guard, h4]

/-- Witness for C3: the blank background pixel, player count 3. -/
theorem claim_C3_witness :
    3 ≤ 3 ∧ colorMatches blankPixel player1Color = false ∧
    colorMatches blankPixel player2Color = false ∧
    (classifyPixel 3 blankPixel player1Color player2Color player3Color player4Color
        = PixClass.p3 ∧
      (4 ≤ 3 → ∀ c4x : Color, branch4Guard 3 blankPixel c4x = true)) :=
  ⟨by decide, by decide, by decide,
    claim_C3 3 blankPixel player1Color player2Color player3Color player4Color
      (by decide) (by decide) (by decide)⟩

/-- C4: the round-timer-expiry call site always passes the literal 2 as
the player count (so the scoring is independent of the configured
count), and with count 2 the branch cascade classifies every pixel by
exact colour match only — equal to the spec-modelled pure exact-match
classifier — so the count-threshold short-circuits are never taken in
an actual game. -/
theorem claim_C4 :
    (∀ (n m : Nat) (img : Image) (c1 c2 c3 c4 : Color),
      timerExpiryScoring n img c1 c2 c3 c4 = calculate_winner img 2 c1 c2 c3 c4 ∧
      timerExpiryScoring n img c1 c2 c3 c4 = timerExpiryScoring m img c1 c2 c3 c4) ∧
    (∀ pc c1 c2 c3 c4 : Color,
      classifyPixel 2 pc c1 c2 c3 c4 = exactMatchClassifySpec pc c1 c2 c3 c4) := by
  refine ⟨fun n m img c1 c2 c3 c4 => ⟨rfl, rfl⟩, fun pc c1 c2 c3 c4 => ?_⟩
  simp [classifyPixel, exactMatchClassifySpec, branch3Guard, branch4Guard]

/-- C5: while the dodge minigame is active and the round is not done,
if exactly one participating player is alive the round ends in that
same frame — whatever the round timer's value — with the round-done
flag set, the 5-second grace timer restarted, and the remaining player
recorded as winner in the head-line message. -/
theorem claim_C5 (st : RoundState) (players : List Player) (count : Nat)
    (w : Player) (hg : st.game_type = MiniGames.Dodge)
    (hd : st.level_done = false) (ha : playersAlive players count = [w]) :
    (dodgeEarlyWin st players count).level_done = true ∧
    (dodgeEarlyWin st players count).level_end_timer = 5 ∧
    (dodgeEarlyWin st players count).head_msg =
      some ("Player " ++ toString (w.number + 1) ++ " won") := by
  simp [dodgeEarlyWin, hg, hd, ha]

/-- A dodge round in progress (timer at 42 s, grace timer untouched). -/
def dodgeSt : RoundState := ⟨MiniGames.Dodge, false, 3, 42, none⟩

/-- Witness for C5: players `[dead player 1, alive player 2]`, count 2:
the round ends at once with player 2 recorded as winner. -/
theorem claim_C5_witness :
    dodgeSt.game_type = MiniGames.Dodge ∧ dodgeSt.level_done = false ∧
    playersAlive [deadP, demoP2] 2 = [demoP2] ∧
    ((dodgeEarlyWin dodgeSt [deadP, demoP2] 2).level_done = true ∧
     (dodgeEarlyWin dodgeSt [deadP, demoP2] 2).level_end_timer = 5 ∧
     (dodgeEarlyWin dodgeSt [deadP, demoP2] 2).head_msg =
       some ("Player " ++ toString (demoP2.number + 1) ++ " won")) :=
  ⟨rfl, rfl, by rfl,
    claim_C5 dodgeSt [deadP, demoP2] 2 demoP2 rfl rfl (by rfl)⟩

/-- C1 (counterexample): the claim says player-vs-player push-out never
sets the grounded flag; but resolving against a player 40 units below
(a wide, thin overlap, so an upward vertical push-out) sets it. -/
theorem claim_C1_cex :
    selfP.is_on_ground = false ∧
    ((selfP.handle_collision [] [otherBelowP]).1).is_on_ground = true := by
  with_unfolding_all decide

/-- C1 (amended): player-vs-player resolution applies the same push-out
as obstacle resolution, including setting the grounded flag (and zeroing
vertical velocity) when the push-out is vertical and upward. -/
lemma resolvePlayers_single (p other : Player) (pr : Rectangle) (c : Rectangle)
    (h : (other.get_collision_rect).get_collision_rec pr = some c) :
    resolvePlayersList p pr [other] = resolveRect p pr other.get_collision_rect c := by
  show (match (other.get_collision_rect).get_collision_rec pr with
    | none => resolvePlayersList p pr []
    | some collision =>
      resolvePlayersList (resolveRect p pr other.get_collision_rect collision) pr []) = _
  rw [h]
  rfl

lemma handle_no_ops (p : Player) (others : List Player) :
    p.handle_collision [] others =
      (resolvePlayersList p p.get_collision_rect others, []) := rfl

theorem claim_C1_amended (p other : Player) (c : Rectangle)
    (h : (other.get_collision_rect).get_collision_rec p.get_collision_rect = some c)
    (hwd : ¬ c.width < c.height)
    (hy : p.get_collision_rect.y < other.get_collision_rect.y) :
    ((p.handle_collision [] [other]).1).is_on_ground = true ∧
    ((p.handle_collision [] [other]).1).velocity.y = 0 ∧
    ((p.handle_collision [] [other]).1).position.y = p.position.y - c.height := by
  have e : (p.handle_collision [] [other]).1
      = resolveRect p p.get_collision_rect other.get_collision_rect c := by
    rw [handle_no_ops]
    exact resolvePlayers_single p other p.get_collision_rect c h
  rw [e]
  simp only [resolveRect]
  rw [if_neg hwd, if_pos hy]
  exact ⟨rfl, rfl, rfl⟩

/-- Witness for C1 (amended): the two demo players. -/
theorem claim_C1_amended_witness :
    (otherBelowP.get_collision_rect).get_collision_rec selfP.get_collision_rect
        = some ⟨-25, 15, 50, 10⟩ ∧
    ¬ (Rectangle.mk (-25) 15 50 10).width < (Rectangle.mk (-25) 15 50 10).height ∧
    selfP.get_collision_rect.y < otherBelowP.get_collision_rect.y ∧
    (((selfP.handle_collision [] [otherBelowP]).1).is_on_ground = true ∧
     ((selfP.handle_collision [] [otherBelowP]).1).velocity.y = 0 ∧
     ((selfP.handle_collision [] [otherBelowP]).1).position.y =
       selfP.position.y - (Rectangle.mk (-25) 15 50 10).height) :=
  ⟨by with_unfolding_all decide, by with_unfolding_all decide,
    by with_unfolding_all decide,
    claim_C1_amended selfP otherBelowP ⟨-25, 15, 50, 10⟩
      (by with_unfolding_all decide) (by with_unfolding_all decide)
      (by with_unfolding_all decide)⟩

lemma gravityStep_eq (p : Player) (dt : ℚ) :
    gravityStep p dt = { p with velocity := ⟨p.velocity.x,
      if p.is_on_ground then p.velocity.y
      else p.velocity.y + (9808/10) * dt⟩ } := by
  unfold gravityStep; split <;> rfl

lemma gravityStep_jump_time (p : Player) (dt : ℚ) :
    (gravityStep p dt).jump_time = p.jump_time := by
  unfold gravityStep; split <;> rfl

lemma gravityStep_max_jump_time (p : Player) (dt : ℚ) :
    (gravityStep p dt).max_jump_time = p.max_jump_time := by
  unfold gravityStep; split <;> rfl

lemma jumpStep_release (q : Player) (dt : ℚ) (hj : q.is_jumping = true) :
    jumpStep q false dt =
      if q.velocity.y < -q.min_jump_velocity then
        { q with is_jumping := false
                 velocity := ⟨q.velocity.x, -q.min_jump_velocity⟩ }
      else { q with is_jumping := false } := by
  simp [jumpStep, hj]

lemma jumpStep_hold_expired (q : Player) (dt : ℚ) (hj : q.is_jumping = true)
    (hm : ¬ q.jump_time + dt < q.max_jump_time) :
    jumpStep q true dt = { q with jump_time := q.jump_time + dt } := by
  simp [jumpStep, hj, hm]

lemma releaseClamp (q : Player) (l r : Bool) (dt : ℚ) (hj : q.is_jumping = true) :
    (moveStep (jumpStep q false dt) l r dt).is_jumping = false ∧
    (moveStep (jumpStep q false dt) l r dt).velocity.y =
      max q.velocity.y (-q.min_jump_velocity) := by
  rw [jumpStep_release q dt hj]
  by_cases hcl : q.velocity.y < -q.min_jump_velocity
  · rw [if_pos hcl]
    refine ⟨by rw [moveStep_is_jumping], ?_⟩
    rw [moveStep_velocity_y]
    exact (max_eq_right hcl.le).symm
  · rw [if_neg hcl]
    refine ⟨by rw [moveStep_is_jumping], ?_⟩
    rw [moveStep_velocity_y]
    exact (max_eq_left (le_of_not_lt hcl)).symm

lemma holdKeeps (q : Player) (l r : Bool) (dt : ℚ) (hj : q.is_jumping = true)
    (hm : ¬ q.jump_time + dt < q.max_jump_time) :
    (moveStep (jumpStep q true dt) l r dt).is_jumping = true ∧
    (moveStep (jumpStep q true dt) l r dt).velocity.y = q.velocity.y := by
  rw [jumpStep_hold_expired q dt hj hm]
  refine ⟨?_, by rw [moveStep_velocity_y]⟩
  rw [moveStep_is_jumping]
  exact hj

/-- C6 (counterexample): the claim says the exit-and-clamp also happens
once the hold time exceeds `max_jump_time` even while "up" is held; but
with "up" held and the hold timer already past 0.4 s, the player is
still in the jumping state after the frame and the upward speed still
exceeds `min_jump_velocity` — no exit, no clamp. -/
theorem claim_C6_cex :
    jumpHoldP.max_jump_time < jumpHoldP.jump_time ∧
    (jumpHoldP.update upHeld (1/100)).is_jumping = true ∧
    (jumpHoldP.update upHeld (1/100)).velocity.y < -jumpHoldP.min_jump_velocity := by
  with_unfolding_all decide

/-- C6 (amended): on releasing "up" while a live player is rising, the
jump state exits and the vertical velocity becomes the gravity-updated
value clamped from below by `-min_jump_velocity` (so the resulting
upward speed never exceeds `jump_force` when `min_jump_velocity ≤
jump_force` and the incoming speed was within `jump_force`); but when
the hold time exceeds `max_jump_time` while "up" is still held, the
jump state does NOT exit and no clamp is applied — the upward force
merely stops being reapplied. -/
theorem claim_C6_amended (p : Player) (inp : Inputs) (dt : ℚ)
    (hdead : p.dead = false) (hjump : p.is_jumping = true) :
    (inp.up = false →
      (p.update inp dt).is_jumping = false ∧
      (p.update inp dt).velocity.y =
        max (if p.is_on_ground then p.velocity.y
             else p.velocity.y + (9808/10) * dt) (-p.min_jump_velocity) ∧
      (p.min_jump_velocity ≤ p.jump_force →
        -p.jump_force ≤ (if p.is_on_ground then p.velocity.y
                         else p.velocity.y + (9808/10) * dt) →
        -p.jump_force ≤ (p.update inp dt).velocity.y)) ∧
    (inp.up = true → p.max_jump_time ≤ p.jump_time + dt →
      (p.update inp dt).is_jumping = true ∧
      (p.update inp dt).velocity.y =
        (if p.is_on_ground then p.velocity.y
         else p.velocity.y + (9808/10) * dt)) := by
  have e : p.update inp dt
      = moveStep (jumpStep (gravityStep p dt) inp.up dt) inp.left inp.right dt := by
    simp [Player.update, hdead]
  have hgj : (gravityStep p dt).is_jumping = true := by
    rw [gravityStep_is_jumping]; exact hjump
  have hgv : (gravityStep p dt).velocity.y =
      (if p.is_on_ground then p.velocity.y
       else p.velocity.y + (9808/10) * dt) := gravityStep_velocity_y p dt
  constructor
  · intro hu
    rw [hu] at e
    have r1 := releaseClamp (gravityStep p dt) inp.left inp.right dt hgj
    rw [e]
    refine ⟨r1.1, ?_, ?_⟩
    · rw [r1.2, hgv, gravityStep_min_jump_velocity]
    · intro h1 h2
      rw [r1.2, hgv, gravityStep_min_jump_velocity]
      exact le_max_of_le_left h2
  · intro hu hm
    rw [hu] at e
    have r2 := holdKeeps (gravityStep p dt) inp.left inp.right dt hgj (by
      rw [gravityStep_jump_time, gravityStep_max_jump_time]
      exact not_lt.mpr hm)
    rw [e]
    exact ⟨r2.1, by rw [r2.2, hgv]⟩

/-- Witness for C6 (amended): the mid-jump demo player with "up"
released for one 1/100 s frame. -/
theorem claim_C6_amended_witness :
    jumpHoldP.dead = false ∧ jumpHoldP.is_jumping = true ∧
    ((noInput.up = false →
      (jumpHoldP.update noInput (1/100)).is_jumping = false ∧
      (jumpHoldP.update noInput (1/100)).velocity.y =
        max (if jumpHoldP.is_on_ground then jumpHoldP.velocity.y
             else jumpHoldP.velocity.y + (9808/10) * (1/100))
          (-jumpHoldP.min_jump_velocity) ∧
      (jumpHoldP.min_jump_velocity ≤ jumpHoldP.jump_force →
        -jumpHoldP.jump_force ≤
          (if jumpHoldP.is_on_ground then jumpHoldP.velocity.y
           else jumpHoldP.velocity.y + (9808/10) * (1/100)) →
        -jumpHoldP.jump_force ≤ (jumpHoldP.update noInput (1/100)).velocity.y)) ∧
    (noInput.up = true → jumpHoldP.max_jump_time ≤ jumpHoldP.jump_time + 1/100 →
      (jumpHoldP.update noInput (1/100)).is_jumping = true ∧
      (jumpHoldP.update noInput (1/100)).velocity.y =
        (if jumpHoldP.is_on_ground then jumpHoldP.velocity.y
         else jumpHoldP.velocity.y + (9808/10) * (1/100)))) :=
  ⟨rfl, rfl, claim_C6_amended jumpHoldP noInput (1/100) rfl rfl⟩

lemma handle_single_op (p : Player) (op : EnvItem) (c : Rectangle)
    (h : p.get_collision_rect.get_collision_rec op.rect = some c) :
    p.handle_collision [op] [] =
      (resolveRect p p.get_collision_rect op.rect c, [(op.rect, genPointsFB c)]) := by
  have e2 : resolveOps p p.get_collision_rect [op]
      = (resolveRect p p.get_collision_rect op.rect c, [(op.rect, genPointsFB c)]) := by
    show (match p.get_collision_rect.get_collision_rec op.rect with
      | none => resolveOps p p.get_collision_rect []
      | some collision =>
        let p1 := resolveRect p p.get_collision_rect op.rect collision
        let pts := genPointsFB collision
        let rec1 := resolveOps p1 p.get_collision_rect []
        (rec1.1, (op.rect, pts) :: rec1.2)) = _
    rw [h]
    rfl
  show (resolvePlayersList (resolveOps p p.get_collision_rect [op]).1
      p.get_collision_rect [], (resolveOps p p.get_collision_rect [op]).2) = _
  rw [e2]
  rfl

/-- C7: for a single overlap with a static obstacle, exactly the axis of
smaller penetration is corrected: when the overlap is narrower than it
is tall, the push-out is horizontal (direction by which side the
player's box is on), horizontal velocity is zeroed and the vertical
components and grounded flag are untouched; otherwise the push-out is
vertical, vertical velocity is zeroed and the horizontal components are
untouched, an upward push additionally setting the grounded flag (a
downward push leaving it as it was). -/
theorem claim_C7 (p : Player) (op : EnvItem) (c : Rectangle)
    (h : p.get_collision_rect.get_collision_rec op.rect = some c) :
    (c.width < c.height →
      ((p.handle_collision [op] []).1.velocity.x = 0 ∧
       (p.handle_collision [op] []).1.velocity.y = p.velocity.y ∧
       (p.handle_collision [op] []).1.position.y = p.position.y ∧
       (p.handle_collision [op] []).1.is_on_ground = p.is_on_ground ∧
       (p.handle_collision [op] []).1.position.x =
         (if p.get_collision_rect.x < op.rect.x then p.position.x - c.width
          else p.position.x + c.width))) ∧
    (¬ c.width < c.height →
      ((p.handle_collision [op] []).1.velocity.y = 0 ∧
       (p.handle_collision [op] []).1.velocity.x = p.velocity.x ∧
       (p.handle_collision [op] []).1.position.x = p.position.x ∧
       (p.get_collision_rect.y < op.rect.y →
         (p.handle_collision [op] []).1.position.y = p.position.y - c.height ∧
         (p.handle_collision [op] []).1.is_on_ground = true) ∧
       (¬ p.get_collision_rect.y < op.rect.y →
         (p.handle_collision [op] []).1.position.y = p.position.y + c.height ∧
         (p.handle_collision [op] []).1.is_on_ground = p.is_on_ground))) := by
  rw [handle_single_op p op c h]
  constructor
  · intro hlt
    simp only [resolveRect]
    rw [if_pos hlt]
    by_cases hx : p.get_collision_rect.x < op.rect.x
    · simp only [if_pos hx]
      exact ⟨trivial, trivial, trivial, trivial, trivial⟩
    · simp only [if_neg hx]
      exact ⟨trivial, trivial, trivial, trivial, trivial⟩
  · intro hge
    simp only [resolveRect]
    rw [if_neg hge]
    by_cases hy : p.get_collision_rect.y < op.rect.y
    · rw [if_pos hy]
      exact ⟨rfl, rfl, rfl, fun _ => ⟨rfl, rfl⟩, fun hc => absurd hy hc⟩
    · rw [if_neg hy]
      exact ⟨rfl, rfl, rfl, fun hc => absurd hc hy, fun _ => ⟨rfl, rfl⟩⟩

/-- Witness for C7: the demo player against the side obstacle — a
5-wide, 50-tall overlap, so a horizontal push-out to the left. -/
theorem claim_C7_witness :
    selfP.get_collision_rect.get_collision_rec sideOp.rect
        = some ⟨20, -25, 5, 50⟩ ∧
    (((Rectangle.mk 20 (-25) 5 50).width < (Rectangle.mk 20 (-25) 5 50).height →
      ((selfP.handle_collision [sideOp] []).1.velocity.x = 0 ∧
       (selfP.handle_collision [sideOp] []).1.velocity.y = selfP.velocity.y ∧
       (selfP.handle_collision [sideOp] []).1.position.y = selfP.position.y ∧
       (selfP.handle_collision [sideOp] []).1.is_on_ground = selfP.is_on_ground ∧
       (selfP.handle_collision [sideOp] []).1.position.x =
         (if selfP.get_collision_rect.x < sideOp.rect.x
          then selfP.position.x - (Rectangle.mk 20 (-25) 5 50).width
          else selfP.position.x + (Rectangle.mk 20 (-25) 5 50).width))) ∧
    (¬ (Rectangle.mk 20 (-25) 5 50).width < (Rectangle.mk 20 (-25) 5 50).height →
      ((selfP.handle_collision [sideOp] []).1.velocity.y = 0 ∧
       (selfP.handle_collision [sideOp] []).1.velocity.x = selfP.velocity.x ∧
       (selfP.handle_collision [sideOp] []).1.position.x = selfP.position.x ∧
       (selfP.get_collision_rect.y < sideOp.rect.y →
         (selfP.handle_collision [sideOp] []).1.position.y =
           selfP.position.y - (Rectangle.mk 20 (-25) 5 50).height ∧
         (selfP.handle_collision [sideOp] []).1.is_on_ground = true) ∧
       (¬ selfP.get_collision_rect.y < sideOp.rect.y →
         (selfP.handle_collision [sideOp] []).1.position.y =
           selfP.position.y + (Rectangle.mk 20 (-25) 5 50).height ∧
         (selfP.handle_collision [sideOp] []).1.is_on_ground = selfP.is_on_ground)))) :=
  ⟨by with_unfolding_all decide,
    claim_C7 selfP sideOp ⟨20, -25, 5, 50⟩ (by with_unfolding_all decide)⟩

/-- C8 (counterexample): the point `(15, 25)` is generated for the
overlap rectangle `(10, 20, 7, 7)`, but the circle for it is drawn
centred at `(10, 20)` — the point minus the paint radius — not at the
point rounded to the nearest pixel, `(15, 25)`. -/
theorem claim_C8_cex :
    (⟨15, 25⟩ : Vector2) ∈ genPointsFB ⟨10, 20, 7, 7⟩ ∧
    (demoP1.paint ⟨15, 25⟩).1 ≠ (roundRust (15 : ℚ), roundRust (25 : ℚ)) := by
  with_unfolding_all decide

/-- C8 (amended): for each generated grid point, the painting operation
draws a filled circle of radius 5 in the acting player's colour, centred
at the point minus the paint radius on each axis (rounded to the nearest
integer pixel) — equivalently at the grid coordinate inside the overlap
rectangle of which the point is the radius-offset. -/
theorem claim_C8_amended (p : Player) (c : Rectangle) (pt : Vector2)
    (h : pt ∈ genPoints c) :
    (p.paint pt).2.1 = 5 ∧ (p.paint pt).2.2 = p.color ∧
    ∃ i j : ℕ,
      pt.x = c.x + (i : ℚ) * PAINT_RADIUS + PAINT_RADIUS ∧
      pt.y = c.y + (j : ℚ) * PAINT_RADIUS + PAINT_RADIUS ∧
      (p.paint pt).1 = (roundRust (c.x + (i : ℚ) * PAINT_RADIUS),
        roundRust (c.y + (j : ℚ) * PAINT_RADIUS)) := by
  refine ⟨rfl, rfl, ?_⟩
  simp only [genPoints] at h
  obtain ⟨i, hi, hmem⟩ := List.mem_flatMap.mp h
  obtain ⟨j, hj, hpt⟩ := List.mem_map.mp hmem
  refine ⟨i, j, ?_, ?_, ?_⟩
  · rw [← hpt]
  · rw [← hpt]
  · rw [← hpt]
    simp only [Player.paint, Prod.mk.injEq]
    constructor
    · congr 1
      ring
    · congr 1
      ring

/-- Witness for C8 (amended): the concrete point `(15, 25)` of the
overlap `(10, 20, 7, 7)`. -/
theorem claim_C8_amended_witness :
    (⟨15, 25⟩ : Vector2) ∈ genPoints ⟨10, 20, 7, 7⟩ ∧
    ((demoP1.paint ⟨15, 25⟩).2.1 = 5 ∧
     (demoP1.paint ⟨15, 25⟩).2.2 = demoP1.color ∧
     ∃ i j : ℕ,
       (Vector2.mk 15 25).x =
         (Rectangle.mk 10 20 7 7).x + (i : ℚ) * PAINT_RADIUS + PAINT_RADIUS ∧
       (Vector2.mk 15 25).y =
         (Rectangle.mk 10 20 7 7).y + (j : ℚ) * PAINT_RADIUS + PAINT_RADIUS ∧
       (demoP1.paint ⟨15, 25⟩).1 =
         (roundRust ((Rectangle.mk 10 20 7 7).x + (i : ℚ) * PAINT_RADIUS),
          roundRust ((Rectangle.mk 10 20 7 7).y + (j : ℚ) * PAINT_RADIUS))) :=
  ⟨by with_unfolding_all decide,
    claim_C8_amended demoP1 ⟨10, 20, 7, 7⟩ ⟨15, 25⟩ (by with_unfolding_all decide)⟩
